import Mathlib

/-!
Verification of the Sale-Order-App conversion core (`src/converter.py`).

The converter turns loosely structured sales-order CSV exports into a
fixed-schema template. The definitions below are a shallow embedding of the
Python source: rows become association lists from literal column name to an
optional text value (`None` cells from the CSV reader become `Option.none`),
the grouping loop becomes structural recursion with the tracked document
number passed explicitly, and Python's `float` parsing is modelled on the
decimal-literal fragment (sign, digits, optional fractional part) as exact
scaled decimals; `datetime.now().strftime(..)` is passed in as an explicit
string parameter, and the process-wide salesperson directory is passed in
as a lookup function. String helpers (strip, upper) are re-implemented
structurally over character lists, with ASCII case mapping and the common
whitespace characters, so that every definition evaluates by kernel
reduction on concrete inputs.
-/

/-- A raw CSV row: an ordered mapping from literal column name to cell value.
`none` models a Python `None` cell (a row shorter than the header). -/
abbrev Row := List (String × Option String)

/-- Whitespace as stripped by `str.strip()` (the characters the converter's
inputs can contain: space, tab, newline, carriage return). -/
def isSpaceChar (c : Char) : Bool :=
  c = ' ' || c = '\t' || c = '\n' || c = '\r'

/-- `str.strip()`: drop leading and trailing whitespace. -/
def pyStrip (s : String) : String :=
  String.mk (((s.toList.dropWhile isSpaceChar).reverse.dropWhile isSpaceChar).reverse)

/-- ASCII uppercase mapping of one character (`str.upper()` on the ASCII
range the salesperson codes live in). -/
def upperChar (c : Char) : Char :=
  if 'a' ≤ c ∧ c ≤ 'z' then Char.ofNat (c.toNat - 32) else c

/-- `str.upper()` character by character. -/
def pyToUpper (s : String) : String :=
  String.mk (s.toList.map upperChar)

/-- Python's `x or y` on strings: the empty string is falsy. -/
def pyOr (a d : String) : String :=
  if a = "" then d else a

/-- Python's `x or y` where `x` is a `str | None` value
(both `None` and `""` are falsy). -/
def pyOrOpt (o : Option String) (d : String) : String :=
  match o with
  | some n => pyOr n d
  | none => d

/-- `get_val` from `convert_rows`: scan `keys` in order, return the stripped
value of the first key present in the row with a non-`None` value. -/
def get_val (row : Row) : List String → String
  | [] => ""
  | k :: ks =>
    match row.lookup k with
    | some (some v) => pyStrip v
    | _ => get_val row ks

/-- Document-number column aliases (`doc_keys` in the source). -/
def doc_keys : List String :=
  ["Doc #", "DOC #", "Doc#", "DOC#", "Doc No", "DOC NO", "Doc"]

/-- Customer-name column aliases (`customer_keys` in the source). -/
def customer_keys : List String :=
  ["Customer Name", "CUSTOMER NAME", "Customer", "CLIENTE", "Cust #"]

/-- SKU column aliases (`sku_keys` in the source). -/
def sku_keys : List String :=
  ["SKU", "Sku", "sku", "Item", "ITEM"]

/-- Description column aliases (`desc_keys` in the source, kept verbatim,
including the mojibake alias). -/
def desc_keys : List String :=
  ["Description", "DESCRIPTION", "description", "DESCRIPCION", "DESCRIPCIÃ“N"]

/-- Quantity column aliases (`qty_keys` in the source). -/
def qty_keys : List String :=
  ["Qty", "QTY", "Quantity"]

/-- Price column aliases (`price_keys` in the source). -/
def price_keys : List String :=
  ["Price", "PRICE", "Unit Price", "UnitPrice"]

/-- Salesperson column aliases (`salesperson_keys` in the source, kept
verbatim including the duplicated first entry). -/
def salesperson_keys : List String :=
  ["Salesperson", "SALESPERSON", "Sales Person", "Sales_Person", "Salesperson"]

/-- Customer-code column aliases (`cust_keys` in the source). -/
def cust_keys : List String :=
  ["Cust #"]

/-- Remove every comma, as in `qty.replace(",", "")`. -/
def stripCommas (s : String) : String :=
  String.mk (s.toList.filter (fun c => c ≠ ','))

/-- Remove all whitespace, as in `re.sub(r"\s+", "", doc_number)`. -/
def stripSpaces (s : String) : String :=
  String.mk (s.toList.filter (fun c => ¬ isSpaceChar c))

/-- An exact decimal number `(-1)^neg * num / 10^pow`, the value fragment of
Python floats the converter actually produces from decimal text. -/
structure PyNum where
  neg : Bool
  num : Nat
  pow : Nat
deriving Repr, DecidableEq

/-- The zero default used whenever a numeric field is empty or unparsable. -/
def pyZero : PyNum := { neg := false, num := 0, pow := 0 }

/-- Numeric value of a digit string (most significant first). -/
def digitsVal (cs : List Char) : Nat :=
  cs.foldl (fun a c => a * 10 + (c.toNat - 48)) 0

/-- Parse an unsigned decimal literal: digits with an optional fractional
part, at least one digit overall. Models the fragment of Python `float`
actually exercised by the converter (no exponent, infinity or nan forms). -/
def parseDecCore (cs : List Char) : Option PyNum :=
  let intDigits := cs.takeWhile Char.isDigit
  let rest := cs.dropWhile Char.isDigit
  match rest with
  | [] =>
    if intDigits = [] then none
    else some { neg := false, num := digitsVal intDigits, pow := 0 }
  | '.' :: rest2 =>
    let fracDigits := rest2.takeWhile Char.isDigit
    let rest3 := rest2.dropWhile Char.isDigit
    if rest3 = [] ∧ ¬ (intDigits = [] ∧ fracDigits = []) then
      some { neg := false
             num := digitsVal intDigits * 10 ^ fracDigits.length + digitsVal fracDigits
             pow := fracDigits.length }
    else none
  | _ => none

/-- Parse a signed decimal literal after stripping surrounding whitespace,
as Python `float` does on decimal text; `none` models a raised `ValueError`. -/
def parseDec (s : String) : Option PyNum :=
  match (pyStrip s).toList with
  | '-' :: cs => (parseDecCore cs).map (fun v => { v with neg := true })
  | '+' :: cs => parseDecCore cs
  | cs => parseDecCore cs

/-- Decimal digits of a natural number (structural, fuelled by the number
itself). -/
def natStrAux : Nat → Nat → List Char
  | 0, _ => []
  | fuel + 1, n =>
    if n < 10 then [Char.ofNat (48 + n)]
    else natStrAux fuel (n / 10) ++ [Char.ofNat (48 + n % 10)]

/-- Decimal rendering of a natural number. -/
def natStr (n : Nat) : String :=
  String.mk (natStrAux (n + 1) n)

/-- Left-pad the two-digit cents part, as `%.2f` does. -/
def pad2 (n : Nat) : String :=
  if n < 10 then "0" ++ natStr n else natStr n

/-- Format a decimal with exactly two fractional digits, rounding half to
even, modelling Python's `f"{x:.2f}"` on exactly-representable values. -/
def format2f (v : PyNum) : String :=
  let n := v.num * 100
  let d := 10 ^ v.pow
  let q := n / d
  let r := n % d
  let cents :=
    if d < 2 * r then q + 1
    else if 2 * r < d then q
    else if q % 2 = 0 then q else q + 1
  (if v.neg then "-" else "") ++ natStr (cents / 100) ++ "." ++ pad2 (cents % 100)

/-- Python's guarded numeric read:
`float(txt.replace(",", "")) if txt else 0.0` with the surrounding
`try/except` defaulting to `0.0`. -/
def parseNumericOr0 (txt : String) : PyNum :=
  if txt = "" then pyZero else (parseDec (stripCommas txt)).getD pyZero

/-- One output row of the fixed template schema. Field names follow the
output column names of `TEMPLATE_HEADERS` (with `/`, `#` and spaces
mangled). -/
structure TemplateRow where
  name : String
  partner_id : String
  user_id : String
  custNo : String
  salesperson : String
  activity_ids : String
  order_line_name : String
  order_line_product_uom_qty : String
  order_line_price_unit : String
  order_line_product_id : String
  order_line_product_template_id_name : String
  order_line_product_template_id : String
deriving Repr, DecidableEq

/-- The fixed literal default salesperson display name from the source. -/
def defaultUser : String := "Jabes Omar De La Cruz"

/-- The literal fallback partner / customer-code value from the source. -/
def defaultPartner : String := "Default User"

/-- The row skeleton shared by every emitted TemplateRow: empty header
fields (`row_out` as first initialized in the source) updated with the
order-line fields every surviving row receives. -/
def lineRowOut (sku description : String) (quantity unit_price : PyNum) :
    TemplateRow :=
  { name := ""
    partner_id := ""
    user_id := ""
    custNo := ""
    salesperson := ""
    activity_ids := ""
    order_line_name := "[" ++ sku ++ "] " ++ description
    order_line_product_uom_qty := format2f quantity
    order_line_price_unit := format2f unit_price
    order_line_product_id := "[" ++ sku ++ "] " ++ description
    order_line_product_template_id_name := description
    order_line_product_template_id := "[" ++ sku ++ "] " ++ description }

/-- Value of an optionally-resolved column:
`get_val(row, [key]) if key else ""`. -/
def optColVal (k : Option String) (row : Row) : String :=
  match k with
  | some k => get_val row [k]
  | none => ""

/-- Header keys of the file: keys of the first row, or `[]` when empty
(`list(epicor_rows[0].keys()) if epicor_rows else []`). -/
def headerKeysOf (rows : List Row) : List String :=
  match rows with
  | [] => []
  | r :: _ => r.map Prod.fst

/-- Column resolution as the source performs it:
`next((k for k in header_keys if k in alias_list), None)` — the first
HEADER key that belongs to the alias set, scanned in header order. -/
def resolveField (header_keys aliases : List String) : Option String :=
  header_keys.find? (fun k => aliases.contains k)

/-- Modelled from the spec: resolution as §4.3 describes it — scan the ALIAS
list in priority order and take the first alias present in the header key
set. Stated only to compare with `resolveField`, the source's behaviour. -/
def resolve_spec (header_keys aliases : List String) : Option String :=
  aliases.find? (fun a => header_keys.contains a)

/-- The document-number-mode loop of `convert_rows`: the tracked
`current_doc` starts as `none` and is updated only when a row opens a new
order group. -/
def convertDoc (spMap : String → Option String) (dk : String)
    (customer_key cust_key : Option String) :
    Option String → List Row → List TemplateRow
  | _, [] => []
  | current_doc, row :: rest =>
    let sku := get_val row sku_keys
    if sku = "" then
      convertDoc spMap dk customer_key cust_key current_doc rest
    else
      let description := get_val row desc_keys
      let doc_number := get_val row [dk]
      let customer_name := optColVal customer_key row
      let salesperson_code := pyToUpper (get_val row salesperson_keys)
      let salesperson_name : Option String :=
        if salesperson_code = "" then some "" else spMap salesperson_code
      let cust_value := optColVal cust_key row
      let quantity := parseNumericOr0 (get_val row qty_keys)
      let unit_price := parseNumericOr0 (get_val row price_keys)
      if doc_number ≠ "" ∧ some doc_number ≠ current_doc ∧ doc_number ≠ "0" then
        { lineRowOut sku description quantity unit_price with
            name := "O" ++ stripSpaces doc_number
            partner_id := pyOr customer_name defaultPartner
            user_id := pyOrOpt salesperson_name defaultUser
            custNo := pyOr cust_value (pyOr customer_name defaultPartner)
            salesperson := pyOrOpt salesperson_name defaultUser } ::
        convertDoc spMap dk customer_key cust_key (some doc_number) rest
      else
        lineRowOut sku description quantity unit_price ::
        convertDoc spMap dk customer_key cust_key current_doc rest

/-- The single-order fallback loop of `convert_rows`, used when no
document-number column resolves; `first` tracks whether the header fields
are still pending. -/
def convertFallback (quotation_number : String) :
    Bool → List Row → List TemplateRow
  | _, [] => []
  | first, row :: rest =>
    let sku := get_val row sku_keys
    if sku = "" then
      convertFallback quotation_number first rest
    else
      let description := get_val row desc_keys
      let quantity := parseNumericOr0 (get_val row qty_keys)
      let unit_price := parseNumericOr0 (get_val row price_keys)
      (if first then
        { lineRowOut sku description quantity unit_price with
            name := quotation_number
            partner_id := defaultPartner
            user_id := defaultUser
            custNo := defaultPartner
            salesperson := defaultUser }
      else
        lineRowOut sku description quantity unit_price) ::
      convertFallback quotation_number false rest

/-- `convert_rows`: resolve the doc-number / customer / customer-code
columns against the first row's header keys, then run the grouping loop, or
the single-order fallback when no document-number column resolves.
`nowStr` stands for `datetime.now().strftime("%m%d%H%M")`. -/
def convert_rows (spMap : String → Option String) (nowStr : String)
    (epicor_rows : List Row) : List TemplateRow :=
  let header_keys := headerKeysOf epicor_rows
  match resolveField header_keys doc_keys with
  | some dk =>
    convertDoc spMap dk (resolveField header_keys customer_keys)
      (resolveField header_keys cust_keys) none epicor_rows
  | none => convertFallback ("QO" ++ nowStr) true epicor_rows

/-- `_load_salesperson_map`: `none` input models a missing backing file
(`os.path.exists` false → empty directory); otherwise fold the parsed CSV
rows into a lookup, stripping and uppercasing codes and stripping names,
skipping rows where either is empty; later rows overwrite earlier ones. -/
def load_salesperson_map (file : Option (List Row)) : String → Option String :=
  match file with
  | none => fun _ => none
  | some rows =>
    rows.foldl
      (fun m row =>
        let code :=
          pyToUpper (pyStrip (match row.lookup "Code" with
            | some (some v) => v
            | _ => ""))
        let nm :=
          pyStrip (match row.lookup "Name" with
            | some (some v) => v
            | _ => "")
        if code ≠ "" ∧ nm ≠ "" then
          fun k => if k = code then some nm else m k
        else m)
      (fun _ => none)

/-- Occurrences of a character in a string (`str.count` for a 1-char needle). -/
def countChar (c : Char) (s : String) : Nat :=
  s.toList.count c

/-- `detect_delimiter` applied to the file's first line: `";"` when the line
has strictly more semicolons than commas, else `","`. -/
def detect_delimiter (first : String) : String :=
  if countChar ';' first > countChar ',' first then ";" else ","

/-- A Python `float(..)` call as a fallible step: `ValueError` becomes
`Except.error`. -/
def pyFloatE (s : String) : Except Unit PyNum :=
  match parseDec s with
  | some v => Except.ok v
  | none => Except.error ()

/-- The guarded numeric read with its exception flow explicit: the
conditional expression inside `try`, and the `except` arm recovering to
zero. -/
def parseNumericE (txt : String) : Except Unit PyNum :=
  match (if txt = "" then Except.ok pyZero else pyFloatE (stripCommas txt)) with
  | Except.ok v => Except.ok v
  | Except.error _ => Except.ok pyZero

/-- The document-number-mode loop with exception propagation explicit: any
error escaping a row step would abort the whole conversion. -/
def convertDocE (spMap : String → Option String) (dk : String)
    (customer_key cust_key : Option String) :
    Option String → List Row → Except Unit (List TemplateRow)
  | _, [] => Except.ok []
  | current_doc, row :: rest =>
    let sku := get_val row sku_keys
    if sku = "" then
      convertDocE spMap dk customer_key cust_key current_doc rest
    else
      let description := get_val row desc_keys
      let doc_number := get_val row [dk]
      let customer_name := optColVal customer_key row
      let salesperson_code := pyToUpper (get_val row salesperson_keys)
      let salesperson_name : Option String :=
        if salesperson_code = "" then some "" else spMap salesperson_code
      let cust_value := optColVal cust_key row
      match parseNumericE (get_val row qty_keys),
            parseNumericE (get_val row price_keys) with
      | Except.ok quantity, Except.ok unit_price =>
        if doc_number ≠ "" ∧ some doc_number ≠ current_doc ∧ doc_number ≠ "0" then
          match convertDocE spMap dk customer_key cust_key (some doc_number) rest with
          | Except.ok tl =>
            Except.ok
              ({ lineRowOut sku description quantity unit_price with
                   name := "O" ++ stripSpaces doc_number
                   partner_id := pyOr customer_name defaultPartner
                   user_id := pyOrOpt salesperson_name defaultUser
                   custNo := pyOr cust_value (pyOr customer_name defaultPartner)
                   salesperson := pyOrOpt salesperson_name defaultUser } :: tl)
          | Except.error e => Except.error e
        else
          match convertDocE spMap dk customer_key cust_key current_doc rest with
          | Except.ok tl =>
            Except.ok (lineRowOut sku description quantity unit_price :: tl)
          | Except.error e => Except.error e
      | Except.error e, _ => Except.error e
      | _, Except.error e => Except.error e

/-- The fallback loop with exception propagation explicit. -/
def convertFallbackE (quotation_number : String) :
    Bool → List Row → Except Unit (List TemplateRow)
  | _, [] => Except.ok []
  | first, row :: rest =>
    let sku := get_val row sku_keys
    if sku = "" then
      convertFallbackE quotation_number first rest
    else
      let description := get_val row desc_keys
      match parseNumericE (get_val row qty_keys),
            parseNumericE (get_val row price_keys) with
      | Except.ok quantity, Except.ok unit_price =>
        match convertFallbackE quotation_number false rest with
        | Except.ok tl =>
          Except.ok
            ((if first then
                { lineRowOut sku description quantity unit_price with
                    name := quotation_number
                    partner_id := defaultPartner
                    user_id := defaultUser
                    custNo := defaultPartner
                    salesperson := defaultUser }
              else
                lineRowOut sku description quantity unit_price) :: tl)
        | Except.error e => Except.error e
      | Except.error e, _ => Except.error e
      | _, Except.error e => Except.error e

/-- `convert_rows` with exception propagation explicit. -/
def convert_rows_exc (spMap : String → Option String) (nowStr : String)
    (epicor_rows : List Row) : Except Unit (List TemplateRow) :=
  let header_keys := headerKeysOf epicor_rows
  match resolveField header_keys doc_keys with
  | some dk =>
    convertDocE spMap dk (resolveField header_keys customer_keys)
      (resolveField header_keys cust_keys) none epicor_rows
  | none => convertFallbackE ("QO" ++ nowStr) true epicor_rows

/-- The five order-header output fields are all populated (a group-opening
row). -/
def headerFieldsSet (t : TemplateRow) : Prop :=
  t.name ≠ "" ∧ t.partner_id ≠ "" ∧ t.user_id ≠ "" ∧
  t.custNo ≠ "" ∧ t.salesperson ≠ ""

/-- The five order-header output fields are all the empty string (a
continuation line of the current group). -/
def headerFieldsEmpty (t : TemplateRow) : Prop :=
  t.name = "" ∧ t.partner_id = "" ∧ t.user_id = "" ∧
  t.custNo = "" ∧ t.salesperson = ""

/-- The per-row output invariant: header fields are all-or-nothing, and the
order-line fields are always carried — a non-empty composite product
identifier repeated in the three product columns and two-decimal quantity
and price texts. -/
def lineInvariant (t : TemplateRow) : Prop :=
  (headerFieldsSet t ∨ headerFieldsEmpty t) ∧
  t.order_line_name ≠ "" ∧
  t.order_line_product_uom_qty ≠ "" ∧
  t.order_line_price_unit ≠ "" ∧
  t.order_line_product_id = t.order_line_name ∧
  t.order_line_product_template_id = t.order_line_name

instance (t : TemplateRow) : Decidable (headerFieldsSet t) := by
  unfold headerFieldsSet
  infer_instance

/-- The order-group state machine of the spec on the document numbers of the
surviving rows: a row opens a new group exactly when its document number is
non-empty, differs from the tracked one and is not the literal `"0"`; the
tracked number is updated only then. -/
def groupOpens : Option String → List String → List Bool
  | _, [] => []
  | cd, dn :: rest =>
    if dn ≠ "" ∧ some dn ≠ cd ∧ dn ≠ "0" then
      true :: groupOpens (some dn) rest
    else
      false :: groupOpens cd rest

/-- Flags for the single-group fallback mode: the first of `n` surviving
rows opens the (only) group when the header is still pending. -/
def firstFlags : Bool → Nat → List Bool
  | _, 0 => []
  | first, n + 1 => first :: firstFlags false n

/-- Which emitted rows of a file should open an order group: in
document-number mode, the group machine run over the surviving rows'
document numbers starting from no tracked number; with no document-number
column, the first surviving row only. -/
def headerFlags (dk : Option String) (rows : List Row) : List Bool :=
  match dk with
  | some dk =>
    groupOpens none
      ((rows.filter (fun r => !(get_val r sku_keys == ""))).map
        (fun r => get_val r [dk]))
  | none =>
    firstFlags true (rows.filter (fun r => !(get_val r sku_keys == ""))).length

theorem append_ne_empty_left (a b : String) (h : a ≠ "") : a ++ b ≠ "" := by
  obtain ⟨da⟩ := a
  obtain ⟨db⟩ := b
  intro hc
  apply h
  have hd : da ++ db = [] := congrArg String.data hc
  rcases List.append_eq_nil.mp hd with ⟨h1, h2⟩
  simp [h1]

theorem append_ne_empty_right (a b : String) (h : b ≠ "") : a ++ b ≠ "" := by
  obtain ⟨da⟩ := a
  obtain ⟨db⟩ := b
  intro hc
  apply h
  have hd : da ++ db = [] := congrArg String.data hc
  rcases List.append_eq_nil.mp hd with ⟨h1, h2⟩
  simp [h2]

theorem format2f_ne_empty (v : PyNum) : format2f v ≠ "" := by
  simp only [format2f]
  apply append_ne_empty_left
  apply append_ne_empty_right
  decide

theorem pyOr_ne_empty (a d : String) (h : d ≠ "") : pyOr a d ≠ "" := by
  unfold pyOr
  split
  · exact h
  · assumption

theorem pyOrOpt_ne_empty (o : Option String) (d : String) (h : d ≠ "") :
    pyOrOpt o d ≠ "" := by
  unfold pyOrOpt
  match o with
  | some n => exact pyOr_ne_empty n d h
  | none => exact h

theorem lineRowOut_invariant (sku description : String) (q p : PyNum) :
    lineInvariant (lineRowOut sku description q p) := by
  unfold lineInvariant lineRowOut headerFieldsSet headerFieldsEmpty
  refine ⟨Or.inr ⟨rfl, rfl, rfl, rfl, rfl⟩, ?_,
    format2f_ne_empty q, format2f_ne_empty p, rfl, rfl⟩
  apply append_ne_empty_left
  apply append_ne_empty_right
  decide

theorem headerRowOut_invariant (sku description dn cn cv : String)
    (sn : Option String) (q p : PyNum) :
    lineInvariant
      { lineRowOut sku description q p with
          name := "O" ++ stripSpaces dn
          partner_id := pyOr cn defaultPartner
          user_id := pyOrOpt sn defaultUser
          custNo := pyOr cv (pyOr cn defaultPartner)
          salesperson := pyOrOpt sn defaultUser } := by
  unfold lineInvariant lineRowOut headerFieldsSet headerFieldsEmpty
  refine ⟨Or.inl ⟨?_, ?_, ?_, ?_, ?_⟩, ?_,
    format2f_ne_empty q, format2f_ne_empty p, rfl, rfl⟩
  case refine_6 =>
    show "[" ++ sku ++ "] " ++ description ≠ ""
    apply append_ne_empty_left
    apply append_ne_empty_right
    decide
  · exact append_ne_empty_left _ _ (by decide)
  · exact pyOr_ne_empty _ _ (by decide)
  · exact pyOrOpt_ne_empty _ _ (by decide)
  · exact pyOr_ne_empty _ _ (pyOr_ne_empty _ _ (by decide))
  · exact pyOrOpt_ne_empty _ _ (by decide)

theorem convertDoc_invariant (spMap : String → Option String) (dk : String)
    (ck kk : Option String) (cd : Option String) (rows : List Row)
    (t : TemplateRow) (ht : t ∈ convertDoc spMap dk ck kk cd rows) :
    lineInvariant t := by
  induction rows generalizing cd with
  | nil => simp [convertDoc] at ht
  | cons row rest ih =>
    simp only [convertDoc] at ht
    split at ht
    · exact ih cd ht
    · split at ht
      · rcases List.mem_cons.mp ht with h1 | h2
        · rw [h1]; exact headerRowOut_invariant _ _ _ _ _ _ _ _
        · exact ih _ h2
      · rcases List.mem_cons.mp ht with h1 | h2
        · rw [h1]; exact lineRowOut_invariant _ _ _ _
        · exact ih _ h2

theorem fallbackHeaderRow_invariant (sku description qn : String)
    (hq : qn ≠ "") (q p : PyNum) :
    lineInvariant
      { lineRowOut sku description q p with
          name := qn
          partner_id := defaultPartner
          user_id := defaultUser
          custNo := defaultPartner
          salesperson := defaultUser } := by
  unfold lineInvariant lineRowOut headerFieldsSet headerFieldsEmpty
  refine ⟨Or.inl ⟨hq, ?_, ?_, ?_, ?_⟩, ?_,
    format2f_ne_empty q, format2f_ne_empty p, rfl, rfl⟩
  · show defaultPartner ≠ ""
    decide
  · show defaultUser ≠ ""
    decide
  · show defaultPartner ≠ ""
    decide
  · show defaultUser ≠ ""
    decide
  · show "[" ++ sku ++ "] " ++ description ≠ ""
    apply append_ne_empty_left
    apply append_ne_empty_right
    decide

theorem convertFallback_invariant (q : String) (hq : q ≠ "") (first : Bool)
    (rows : List Row) (t : TemplateRow)
    (ht : t ∈ convertFallback q first rows) : lineInvariant t := by
  induction rows generalizing first with
  | nil => simp [convertFallback] at ht
  | cons row rest ih =>
    simp only [convertFallback] at ht
    split at ht
    · exact ih first ht
    · rcases List.mem_cons.mp ht with h1 | h2
      · cases first with
        | true =>
          simp only [if_true] at h1
          rw [h1]
          exact fallbackHeaderRow_invariant _ _ _ hq _ _
        | false =>
          simp only [Bool.false_eq_true, if_false] at h1
          rw [h1]
          exact lineRowOut_invariant _ _ _ _
      · exact ih false h2

theorem headerRowOut_set (sku description dn cn cv : String)
    (sn : Option String) (q p : PyNum) :
    headerFieldsSet
      { lineRowOut sku description q p with
          name := "O" ++ stripSpaces dn
          partner_id := pyOr cn defaultPartner
          user_id := pyOrOpt sn defaultUser
          custNo := pyOr cv (pyOr cn defaultPartner)
          salesperson := pyOrOpt sn defaultUser } := by
  unfold headerFieldsSet lineRowOut
  refine ⟨?_, ?_, ?_, ?_, ?_⟩
  · exact append_ne_empty_left _ _ (by decide)
  · exact pyOr_ne_empty _ _ (by decide)
  · exact pyOrOpt_ne_empty _ _ (by decide)
  · exact pyOr_ne_empty _ _ (pyOr_ne_empty _ _ (by decide))
  · exact pyOrOpt_ne_empty _ _ (by decide)

theorem fallbackHeaderRow_set (sku description qn : String) (hq : qn ≠ "")
    (q p : PyNum) :
    headerFieldsSet
      { lineRowOut sku description q p with
          name := qn
          partner_id := defaultPartner
          user_id := defaultUser
          custNo := defaultPartner
          salesperson := defaultUser } := by
  unfold headerFieldsSet lineRowOut
  refine ⟨hq, ?_, ?_, ?_, ?_⟩
  · show defaultPartner ≠ ""
    decide
  · show defaultUser ≠ ""
    decide
  · show defaultPartner ≠ ""
    decide
  · show defaultUser ≠ ""
    decide

theorem lineRowOut_not_set (sku description : String) (q p : PyNum) :
    ¬ headerFieldsSet (lineRowOut sku description q p) :=
  fun h => h.1 rfl

theorem convertDoc_headerFlags (spMap : String → Option String) (dk : String)
    (ck kk : Option String) (cd : Option String) (rows : List Row) :
    (convertDoc spMap dk ck kk cd rows).map (fun t => decide (headerFieldsSet t)) =
      groupOpens cd
        ((rows.filter (fun r => !(get_val r sku_keys == ""))).map
          (fun r => get_val r [dk])) := by
  induction rows generalizing cd with
  | nil => simp [convertDoc, groupOpens]
  | cons row rest ih =>
    by_cases hsku : get_val row sku_keys = ""
    · have hskub : (!(get_val row sku_keys == "")) = false := by simp [hsku]
      simp only [convertDoc, List.filter_cons, hskub, if_false]
      rw [if_pos hsku]
      exact ih cd
    · have hskub : (!(get_val row sku_keys == "")) = true := by simp [hsku]
      simp only [convertDoc, List.filter_cons, hskub, if_true, List.map_cons]
      rw [if_neg hsku]
      by_cases hg : get_val row [dk] ≠ "" ∧ some (get_val row [dk]) ≠ cd ∧
          get_val row [dk] ≠ "0"
      · rw [if_pos hg]
        simp only [List.map_cons, groupOpens]
        rw [if_pos hg]
        exact congrArg₂ List.cons
          (decide_eq_true (headerRowOut_set _ _ _ _ _ _ _ _)) (ih _)
      · rw [if_neg hg]
        simp only [List.map_cons, groupOpens]
        rw [if_neg hg]
        exact congrArg₂ List.cons
          (decide_eq_false (lineRowOut_not_set _ _ _ _)) (ih cd)

theorem convertFallback_headerFlags (q : String) (hq : q ≠ "") (first : Bool)
    (rows : List Row) :
    (convertFallback q first rows).map (fun t => decide (headerFieldsSet t)) =
      firstFlags first
        (rows.filter (fun r => !(get_val r sku_keys == ""))).length := by
  induction rows generalizing first with
  | nil => simp [convertFallback, firstFlags]
  | cons row rest ih =>
    by_cases hsku : get_val row sku_keys = ""
    · have hskub : (!(get_val row sku_keys == "")) = false := by simp [hsku]
      simp only [convertFallback, List.filter_cons, hskub, if_false]
      rw [if_pos hsku]
      exact ih first
    · have hskub : (!(get_val row sku_keys == "")) = true := by simp [hsku]
      simp only [convertFallback, List.filter_cons, hskub, if_true,
        List.length_cons, List.map_cons, firstFlags]
      rw [if_neg hsku]
      cases first with
      | true =>
        simp only [if_true]
        exact congrArg₂ List.cons
          (decide_eq_true (fallbackHeaderRow_set _ _ _ hq _ _)) (ih false)
      | false =>
        simp only [Bool.false_eq_true, if_false]
        exact congrArg₂ List.cons
          (decide_eq_false (lineRowOut_not_set _ _ _ _)) (ih false)

theorem convertDoc_length (spMap : String → Option String) (dk : String)
    (ck kk : Option String) (cd : Option String) (rows : List Row) :
    (convertDoc spMap dk ck kk cd rows).length =
      rows.countP (fun r => decide (get_val r sku_keys ≠ "")) := by
  induction rows generalizing cd with
  | nil => simp [convertDoc]
  | cons row rest ih =>
    simp only [convertDoc, List.countP_cons]
    by_cases hsku : get_val row sku_keys = ""
    · simp [hsku, ih cd]
    · simp only [if_neg hsku]
      split
      · simp [hsku, ih]
      · simp [hsku, ih]

theorem convertFallback_length (q : String) (first : Bool) (rows : List Row) :
    (convertFallback q first rows).length =
      rows.countP (fun r => decide (get_val r sku_keys ≠ "")) := by
  induction rows generalizing first with
  | nil => simp [convertFallback]
  | cons row rest ih =>
    simp only [convertFallback, List.countP_cons]
    by_cases hsku : get_val row sku_keys = ""
    · simp [hsku, ih first]
    · simp [hsku, if_neg hsku, ih]

theorem convert_rows_length (spMap : String → Option String) (nowStr : String)
    (rows : List Row) :
    (convert_rows spMap nowStr rows).length =
      rows.countP (fun r => decide (get_val r sku_keys ≠ "")) := by
  simp only [convert_rows]
  split
  · apply convertDoc_length
  · apply convertFallback_length

theorem parseNumericE_ok (txt : String) :
    parseNumericE txt = Except.ok (parseNumericOr0 txt) := by
  unfold parseNumericE parseNumericOr0 pyFloatE
  by_cases h : txt = ""
  · simp [h]
  · simp only [if_neg h]
    cases parseDec (stripCommas txt) <;> simp

theorem convertDocE_ok (spMap : String → Option String) (dk : String)
    (ck kk : Option String) (cd : Option String) (rows : List Row) :
    convertDocE spMap dk ck kk cd rows =
      Except.ok (convertDoc spMap dk ck kk cd rows) := by
  induction rows generalizing cd with
  | nil => simp [convertDocE, convertDoc]
  | cons row rest ih =>
    simp only [convertDocE, convertDoc, parseNumericE_ok]
    by_cases hsku : get_val row sku_keys = ""
    · simp [hsku, ih cd]
    · simp only [if_neg hsku]
      split
      · simp [ih]
      · simp [ih]

theorem convertFallbackE_ok (q : String) (first : Bool) (rows : List Row) :
    convertFallbackE q first rows = Except.ok (convertFallback q first rows) := by
  induction rows generalizing first with
  | nil => simp [convertFallbackE, convertFallback]
  | cons row rest ih =>
    simp only [convertFallbackE, convertFallback, parseNumericE_ok]
    by_cases hsku : get_val row sku_keys = ""
    · simp [hsku, ih first]
    · simp [hsku, ih]

theorem eq_of_mem_of_length_le_one {l : List String} {a b : String}
    (hl : l.length ≤ 1) (ha : a ∈ l) (hb : b ∈ l) : a = b := by
  match l, hl with
  | [], _ => cases ha
  | [x], _ => rw [List.mem_singleton.mp ha, List.mem_singleton.mp hb]

theorem convertFallback_false_empty (q : String) (rows : List Row)
    (t : TemplateRow) (ht : t ∈ convertFallback q false rows) :
    headerFieldsEmpty t := by
  induction rows with
  | nil => simp [convertFallback] at ht
  | cons row rest ih =>
    simp only [convertFallback] at ht
    split at ht
    · exact ih ht
    · simp only [Bool.false_eq_true, if_false] at ht
      rcases List.mem_cons.mp ht with h1 | h2
      · rw [h1]
        exact ⟨rfl, rfl, rfl, rfl, rfl⟩
      · exact ih h2

theorem convertFallback_true_cases (q : String) (rows : List Row) :
    convertFallback q true rows = [] ∨
    ∃ t tl, convertFallback q true rows = t :: tl ∧
      t.name = q ∧ t.partner_id = defaultPartner ∧ t.user_id = defaultUser ∧
      t.custNo = defaultPartner ∧ t.salesperson = defaultUser ∧
      ∀ u ∈ tl, headerFieldsEmpty u := by
  induction rows with
  | nil => left; simp [convertFallback]
  | cons row rest ih =>
    by_cases hsku : get_val row sku_keys = ""
    · rw [show convertFallback q true (row :: rest) = convertFallback q true rest by
        simp [convertFallback, hsku]]
      exact ih
    · right
      refine ⟨{ lineRowOut (get_val row sku_keys) (get_val row desc_keys)
            (parseNumericOr0 (get_val row qty_keys))
            (parseNumericOr0 (get_val row price_keys)) with
          name := q
          partner_id := defaultPartner
          user_id := defaultUser
          custNo := defaultPartner
          salesperson := defaultUser },
        convertFallback q false rest, ?_, rfl, rfl, rfl, rfl, rfl, ?_⟩
      · simp [convertFallback, hsku]
      · exact fun u hu => convertFallback_false_empty q rest u hu

theorem resolveField_eq_none_iff (header_keys aliases : List String) :
    resolveField header_keys aliases = none ↔
      ∀ k ∈ header_keys, aliases.contains k = false := by
  unfold resolveField
  rw [List.find?_eq_none]
  constructor
  · intro h k hk
    have := h k hk
    simpa using this
  · intro h k hk
    simp only [h k hk]
    simp

theorem resolveField_agrees_of_unique (header_keys aliases : List String)
    (h : (header_keys.filter (fun k => aliases.contains k)).length ≤ 1) :
    resolveField header_keys aliases = resolve_spec header_keys aliases := by
  unfold resolveField resolve_spec
  cases hf : header_keys.find? (fun k => aliases.contains k) with
  | none =>
    have hall := List.find?_eq_none.mp hf
    symm
    rw [List.find?_eq_none]
    intro a ha hc
    have hmem : a ∈ header_keys := by
      simpa using hc
    exact hall a hmem (by simp [ha])
  | some k =>
    have hk_mem : k ∈ header_keys := List.mem_of_find?_eq_some hf
    have hk_p : aliases.contains k = true := List.find?_some hf
    have hk_al : k ∈ aliases := by simpa using hk_p
    cases hs : aliases.find? (fun a => header_keys.contains a) with
    | none =>
      exfalso
      exact List.find?_eq_none.mp hs k hk_al (by simp [hk_mem])
    | some a =>
      have ha_al : a ∈ aliases := List.mem_of_find?_eq_some hs
      have ha_hk : a ∈ header_keys := by
        have := List.find?_some hs
        simpa using this
      have hkf : k ∈ header_keys.filter (fun k => aliases.contains k) :=
        List.mem_filter.mpr ⟨hk_mem, hk_p⟩
      have haf : a ∈ header_keys.filter (fun k => aliases.contains k) :=
        List.mem_filter.mpr ⟨ha_hk, by simp [ha_al]⟩
      rw [eq_of_mem_of_length_le_one h hkf haf]

/-- C1 counterexample: with header keys `["Doc", "Doc #", "SKU"]` the code
resolves the document-number column by scanning the HEADER keys in header
order (choosing `"Doc"`), not the alias list in priority order (which would
choose `"Doc #"`): the emitted order name is `"O2"`, read from the `"Doc"`
column, while alias-priority resolution would read `"1"` from `"Doc #"` and
emit `"O1"`. -/
theorem resolution_header_order_counterexample :
    resolveField ["Doc", "Doc #", "SKU"] doc_keys = some "Doc" ∧
    resolve_spec ["Doc", "Doc #", "SKU"] doc_keys = some "Doc #" ∧
    resolveField ["Doc", "Doc #", "SKU"] doc_keys ≠
      resolve_spec ["Doc", "Doc #", "SKU"] doc_keys ∧
    (convert_rows (fun _ => none) "0101"
      [[("Doc", some "2"), ("Doc #", some "1"), ("SKU", some "X")]]).map
      TemplateRow.name = ["O2"] ∧
    get_val [("Doc", some "2"), ("Doc #", some "1"), ("SKU", some "X")]
      ["Doc #"] = "1" ∧
    ("O2" : String) ≠ "O1" := by
  refine ⟨by decide, by decide, by decide, by decide, by decide, by decide⟩

/-- C1 (amended): the document-number, customer and customer-code columns
are resolved by scanning the first row's header keys in header order and
taking the first key contained in the alias set; when at most one header
key belongs to a field's alias set this agrees with the spec's
alias-priority-order resolution, and when no alias matches the field
resolves to `none` (treated as always-empty downstream, not an error). -/
theorem resolveField_unique_alias_agreement (header_keys aliases : List String)
    (h : (header_keys.filter (fun k => aliases.contains k)).length ≤ 1) :
    resolveField header_keys aliases = resolve_spec header_keys aliases ∧
    (resolveField header_keys aliases = none ↔
      ∀ k ∈ header_keys, aliases.contains k = false) :=
  ⟨resolveField_agrees_of_unique header_keys aliases h,
   resolveField_eq_none_iff header_keys aliases⟩

/-- C1 witness: a header with a single SKU alias resolves identically under
the code's header-order scan and the spec's alias-priority scan. -/
theorem resolveField_unique_alias_agreement_witness :
    resolveField ["Doc #", "SKU", "Qty"] sku_keys =
      resolve_spec ["Doc #", "SKU", "Qty"] sku_keys :=
  (resolveField_unique_alias_agreement ["Doc #", "SKU", "Qty"] sku_keys
    (by decide)).1

/-- C2: for document numbers `["1","1","2","2","0","3"]` with valid SKUs on
all six rows, six TemplateRows are emitted, exactly three of them (the
first `"1"` row, the first `"2"` row and the `"3"` row) carrying non-empty
header fields; the `"0"` row is absorbed as a line row, and — as the third
conjunct shows on a `["2","0","2"]` file — without updating the tracked
document number (the later `"2"` row opens no new group). -/
theorem convert_rows_grouping_scenario :
    (convert_rows (fun _ => none) "x"
      [[("Doc #", some "1"), ("SKU", some "A")],
       [("Doc #", some "1"), ("SKU", some "B")],
       [("Doc #", some "2"), ("SKU", some "C")],
       [("Doc #", some "2"), ("SKU", some "D")],
       [("Doc #", some "0"), ("SKU", some "E")],
       [("Doc #", some "3"), ("SKU", some "F")]]).map TemplateRow.name
      = ["O1", "", "O2", "", "", "O3"] ∧
    (convert_rows (fun _ => none) "x"
      [[("Doc #", some "1"), ("SKU", some "A")],
       [("Doc #", some "1"), ("SKU", some "B")],
       [("Doc #", some "2"), ("SKU", some "C")],
       [("Doc #", some "2"), ("SKU", some "D")],
       [("Doc #", some "0"), ("SKU", some "E")],
       [("Doc #", some "3"), ("SKU", some "F")]]).map TemplateRow.partner_id
      = ["Default User", "", "Default User", "", "", "Default User"] ∧
    (convert_rows (fun _ => none) "x"
      [[("Doc #", some "2"), ("SKU", some "A")],
       [("Doc #", some "0"), ("SKU", some "B")],
       [("Doc #", some "2"), ("SKU", some "C")]]).map TemplateRow.name
      = ["O2", "", ""] :=
  ⟨by decide, by decide, by decide⟩

/-- C3: the five header fields are populated exactly on the rows that open
an order group — in document-number mode, exactly where the group state
machine over the surviving rows' document numbers opens a group (so they
are empty on every subsequent row of the same group), and in fallback mode
on the first surviving row only — and every emitted TemplateRow has the
header fields all-set or all-empty and carries the order-line fields: a
non-empty composite product identifier equal across the three product
columns and non-empty two-decimal quantity and price texts. -/
theorem convert_rows_sparse_header (spMap : String → Option String)
    (nowStr : String) (rows : List Row) :
    (∀ t ∈ convert_rows spMap nowStr rows, lineInvariant t) ∧
    (convert_rows spMap nowStr rows).map (fun t => decide (headerFieldsSet t)) =
      headerFlags (resolveField (headerKeysOf rows) doc_keys) rows := by
  constructor
  · intro t ht
    simp only [convert_rows] at ht
    split at ht
    · exact convertDoc_invariant _ _ _ _ _ _ _ ht
    · exact convertFallback_invariant _ (append_ne_empty_left _ _ (by decide)) _ _ _ ht
  · simp only [convert_rows, headerFlags]
    split
    · apply convertDoc_headerFlags
    · exact convertFallback_headerFlags _ (append_ne_empty_left _ _ (by decide)) _ _

/-- C3 witness: on a two-row file sharing document number 1, the invariant
holds on the emitted header row and the header flags are exactly
`[true, false]` — headers on the group-opening row only. -/
theorem convert_rows_sparse_header_witness :
    lineInvariant
      { name := "O1", partner_id := "Default User",
        user_id := "Jabes Omar De La Cruz", custNo := "Default User",
        salesperson := "Jabes Omar De La Cruz", activity_ids := "",
        order_line_name := "[A] ", order_line_product_uom_qty := "0.00",
        order_line_price_unit := "0.00", order_line_product_id := "[A] ",
        order_line_product_template_id_name := "",
        order_line_product_template_id := "[A] " } ∧
    (convert_rows (fun _ => none) "x"
      [[("Doc #", some "1"), ("SKU", some "A")],
       [("Doc #", some "1"), ("SKU", some "B")]]).map
      (fun t => decide (headerFieldsSet t)) = [true, false] :=
  ⟨(convert_rows_sparse_header (fun _ => none) "x"
      [[("Doc #", some "1"), ("SKU", some "A")],
       [("Doc #", some "1"), ("SKU", some "B")]]).1 _ (by decide),
   ((convert_rows_sparse_header (fun _ => none) "x"
      [[("Doc #", some "1"), ("SKU", some "A")],
       [("Doc #", some "1"), ("SKU", some "B")]]).2).trans (by decide)⟩

/-- C4: rows with an empty (or absent) SKU are skipped, so the number of
emitted TemplateRows is at most the number of input rows whose resolved
SKU text is non-empty — in document-number mode and fallback mode alike. -/
theorem convert_rows_output_le_sku_rows (spMap : String → Option String)
    (nowStr : String) (rows : List Row) :
    (convert_rows spMap nowStr rows).length ≤
      rows.countP (fun r => decide (get_val r sku_keys ≠ "")) :=
  le_of_eq (convert_rows_length spMap nowStr rows)

/-- C5: quantity `"1,250"` formats as `"1250.00"`, price `"19.5"` as
`"19.50"`, the unparsable `"abc"` as `"0.00"`, and missing numeric fields
as `"0.00"`, with a value produced for every row. -/
theorem convert_rows_numeric_formatting :
    (convert_rows (fun _ => none) "0101"
      [[("SKU", some "A"), ("Qty", some "1,250"), ("Price", some "19.5")],
       [("SKU", some "B"), ("Qty", some "abc"), ("Price", some "abc")],
       [("SKU", some "C")]]).map
      (fun t => (t.order_line_product_uom_qty, t.order_line_price_unit)) =
      [("1250.00", "19.50"), ("0.00", "0.00"), ("0.00", "0.00")] := by
  decide

/-- C6: when no document-number column resolves, the whole file is one
order group: the first emitted row (if any) carries the generated name
`"QO" ++ nowStr` and the literal partner / user / customer-code /
salesperson defaults, every later emitted row has empty header fields, and
the output does not depend on the salesperson directory (no lookup is
attempted). -/
theorem convert_rows_no_doc_fallback (spMap : String → Option String)
    (nowStr : String) (rows : List Row)
    (h : resolveField (headerKeysOf rows) doc_keys = none) :
    (∀ t, (convert_rows spMap nowStr rows).head? = some t →
      t.name = "QO" ++ nowStr ∧ t.partner_id = defaultPartner ∧
      t.user_id = defaultUser ∧ t.custNo = defaultPartner ∧
      t.salesperson = defaultUser) ∧
    (∀ t ∈ (convert_rows spMap nowStr rows).tail, headerFieldsEmpty t) ∧
    convert_rows spMap nowStr rows = convert_rows (fun _ => none) nowStr rows := by
  have hev : convert_rows spMap nowStr rows =
      convertFallback ("QO" ++ nowStr) true rows := by
    simp only [convert_rows, h]
  have hev2 : convert_rows (fun _ => none) nowStr rows =
      convertFallback ("QO" ++ nowStr) true rows := by
    simp only [convert_rows, h]
  rw [hev, hev2]
  refine ⟨?_, ?_, rfl⟩
  · intro t ht
    rcases convertFallback_true_cases ("QO" ++ nowStr) rows with
      hcase | ⟨t0, tl, heq, h1, h2, h3, h4, h5, h6⟩
    · rw [hcase] at ht
      cases ht
    · rw [heq] at ht
      simp only [List.head?_cons, Option.some.injEq] at ht
      rw [← ht]
      exact ⟨h1, h2, h3, h4, h5⟩
  · intro t ht
    rcases convertFallback_true_cases ("QO" ++ nowStr) rows with
      hcase | ⟨t0, tl, heq, h1, h2, h3, h4, h5, h6⟩
    · rw [hcase] at ht
      cases ht
    · rw [heq] at ht
      exact h6 t ht

/-- C6 witness: on a file with only a SKU column, the output is the same
under a directory mapping every code as under the empty directory. -/
theorem convert_rows_no_doc_fallback_witness :
    convert_rows (fun _ => some "Mapped Name") "10121045" [[("SKU", some "A")]] =
      convert_rows (fun _ => none) "10121045" [[("SKU", some "A")]] :=
  (convert_rows_no_doc_fallback (fun _ => some "Mapped Name") "10121045"
    [[("SKU", some "A")]] (by decide)).2.2

/-- C7: the salesperson code is stripped and uppercased before lookup, so
input `" jd "` hits directory key `"JD"` (itself normalized at load time)
and `user_id` becomes the display name; an unmapped code and an absent
code both fall back to the fixed literal default name; and a missing
directory file loads as the empty directory, so every lookup misses. -/
theorem salesperson_lookup_normalization :
    (convert_rows
        (load_salesperson_map (some [[("Code", some " jd "), ("Name", some "John Doe")]]))
        "x" [[("Doc #", some "1"), ("SKU", some "X"), ("Salesperson", some " jd ")]]).map
      (fun t => (t.user_id, t.salesperson)) = [("John Doe", "John Doe")] ∧
    (convert_rows
        (load_salesperson_map (some [[("Code", some "JD"), ("Name", some "John Doe")]]))
        "x" [[("Doc #", some "1"), ("SKU", some "X"), ("Salesperson", some "zz")]]).map
      TemplateRow.user_id = [defaultUser] ∧
    (convert_rows
        (load_salesperson_map (some [[("Code", some "JD"), ("Name", some "John Doe")]]))
        "x" [[("Doc #", some "1"), ("SKU", some "X")]]).map
      TemplateRow.user_id = [defaultUser] ∧
    ∀ k, load_salesperson_map none k = none :=
  ⟨by decide, by decide, by decide, fun k => rfl⟩

/-- C8: `convert_rows` is total on its in-memory input: the
exception-explicit model returns `Except.ok` of the pure result on every
input, the numeric-parse recovery being the only fallible point and never
surfacing to the caller. -/
theorem convert_rows_total (spMap : String → Option String) (nowStr : String)
    (rows : List Row) :
    convert_rows_exc spMap nowStr rows =
      Except.ok (convert_rows spMap nowStr rows) := by
  simp only [convert_rows_exc, convert_rows]
  split
  · apply convertDocE_ok
  · apply convertFallbackE_ok

/-- C9: the delimiter decision depends only on the first line's character
counts — `";"` exactly when semicolons strictly outnumber commas, and `","`
otherwise (so equal counts and delimiter-free lines both yield `","`). -/
theorem detect_delimiter_char_counts (first : String) :
    (detect_delimiter first = ";" ↔ countChar ',' first < countChar ';' first) ∧
    (detect_delimiter first = "," ↔ ¬ countChar ',' first < countChar ';' first) := by
  unfold detect_delimiter
  by_cases h : countChar ';' first > countChar ',' first
  · rw [if_pos h]
    exact ⟨⟨fun _ => h, fun _ => rfl⟩,
      ⟨fun hc => absurd hc (by decide), fun hn => absurd h hn⟩⟩
  · rw [if_neg h]
    exact ⟨⟨fun hc => absurd hc (by decide), fun hlt => absurd hlt h⟩,
      ⟨fun _ => h, fun _ => rfl⟩⟩

/-- C10: on the row that opens a new order group in document-number mode,
the `Cust #` output column is filled by the fallback chain customer code,
then customer name, then `"Default User"`; and since `"Cust #"` is itself a
customer-name alias, a file with a `Cust #` column but no customer-name
column uses the customer code as `partner_id` too. -/
theorem convertDoc_header_cust_fallback (spMap : String → Option String)
    (dk : String) (ck kk : Option String) (cd : Option String)
    (row : Row) (rest : List Row)
    (hsku : get_val row sku_keys ≠ "")
    (hd1 : get_val row [dk] ≠ "")
    (hd2 : some (get_val row [dk]) ≠ cd)
    (hd3 : get_val row [dk] ≠ "0") :
    (∃ t tl, convertDoc spMap dk ck kk cd (row :: rest) = t :: tl ∧
      t.custNo = pyOr (optColVal kk row) (pyOr (optColVal ck row) defaultPartner) ∧
      t.partner_id = pyOr (optColVal ck row) defaultPartner) ∧
    customer_keys.contains "Cust #" = true ∧
    (convert_rows (fun _ => none) "x"
      [[("Doc #", some "1"), ("Cust #", some "C7"), ("SKU", some "X")]]).map
      (fun t => (t.partner_id, t.custNo)) = [("C7", "C7")] := by
  refine ⟨?_, by decide, by decide⟩
  refine ⟨{ lineRowOut (get_val row sku_keys) (get_val row desc_keys)
        (parseNumericOr0 (get_val row qty_keys))
        (parseNumericOr0 (get_val row price_keys)) with
      name := "O" ++ stripSpaces (get_val row [dk])
      partner_id := pyOr (optColVal ck row) defaultPartner
      user_id := pyOrOpt
        (if pyToUpper (get_val row salesperson_keys) = "" then some ""
         else spMap (pyToUpper (get_val row salesperson_keys))) defaultUser
      custNo := pyOr (optColVal kk row) (pyOr (optColVal ck row) defaultPartner)
      salesperson := pyOrOpt
        (if pyToUpper (get_val row salesperson_keys) = "" then some ""
         else spMap (pyToUpper (get_val row salesperson_keys))) defaultUser },
    convertDoc spMap dk ck kk (some (get_val row [dk])) rest, ?_, rfl, rfl⟩
  simp only [convertDoc]
  rw [if_neg hsku, if_pos ⟨hd1, hd2, hd3⟩]

/-- C10 witness: the fallback chain and the alias participation at a
concrete one-row file with both a customer name and a customer code. -/
theorem convertDoc_header_cust_fallback_witness :
    customer_keys.contains "Cust #" = true ∧
    (convert_rows (fun _ => none) "x"
      [[("Doc #", some "1"), ("Cust #", some "C7"), ("SKU", some "X")]]).map
      (fun t => (t.partner_id, t.custNo)) = [("C7", "C7")] :=
  (convertDoc_header_cust_fallback (fun _ => none) "Doc #" (some "Cust #")
    (some "Cust #") none [("Doc #", some "1"), ("Cust #", some "C7"), ("SKU", some "X")]
    [] (by decide) (by decide) (by decide) (by decide)).2
